import Mathlib

/-!
Shallow embedding of the NutsTools postal-code-to-NUTS lookup component
(src/nutstools/postalnuts.py) and of its fetch/cache logic (NutsData).

Strings are modelled through their character lists (`String.mk`/`String.data`);
the data handled by the tool (postal codes, NUTS region codes, CSV cells) is
ASCII, so ASCII models of `str.upper` and of the regex class `\s` are faithful.
-/

namespace NutsTools

/-- Python regex class `\s` as it applies to the ASCII data of this tool:
space, tab, newline, carriage return, vertical tab (11) and form feed (12). -/
def isPySpace (c : Char) : Bool :=
  c = ' ' || c = '\t' || c = '\n' || c = '\r' || c = Char.ofNat 11 || c = Char.ofNat 12

/-- Models Python str.upper on the ASCII data of this tool. -/
def toUpperStr (s : String) : String :=
  String.mk (s.data.map Char.toUpper)

/-- Cell cleaning in NutsPostalCode.__init__: every cell of every column gets
str.replace of the single-quote character (code 39) by the empty string and
then a regex replace of every `\s` character by the empty string. -/
def normalizeCell (s : String) : String :=
  String.mk ((s.data.filter (fun c => c != Char.ofNat 39)).filter (fun c => !isPySpace c))

/-- NutsPostalCode.__init__ after pd.read_csv: clean every cell, then
set_index on the second column (postal codes) keeping the first column
(NUTS codes) as the values.  The result is the row list of the index/value
Series, in file order: (normalized postal code, normalized region code).
pandas set_index keeps duplicate index labels, so no deduplication happens. -/
def loadRows (rows : List (String × String)) : List (String × String) :=
  rows.map (fun r => (normalizeCell r.2, normalizeCell r.1))

/-- pandas Series.loc-style label lookup: the values of every row whose index
label equals the key, in order. `.loc` raises KeyError on no match, gives the
scalar on a unique match and a sub-Series when the label is duplicated. -/
def loc (rows : List (String × String)) (k : String) : List String :=
  (rows.filter (fun r => r.1 == k)).map Prod.snd

/-- Python re.sub with pattern `.$` / `..$` / `...$` and empty replacement:
remove the last n characters when the string has at least n characters,
otherwise leave the string unchanged (the pattern does not match). -/
def reSubLastN (n : Nat) (s : String) : String :=
  if n ≤ s.data.length then String.mk (s.data.take (s.data.length - n)) else s

/-- Removal of the last n characters of a string, the truncation the spec
describes (shorter strings truncate to the empty string). -/
def dropLastChars (s : String) (n : Nat) : String :=
  String.mk (s.data.take (s.data.length - n))

/-- The level truncation of one_postal2nuts: level 2, 1, 0 remove the last
1, 2, 3 characters via re.sub; every other level (3 included, but also 4 or
-1: there is no validation in this function) returns the code unchanged. -/
def truncateLevel (level : Int) (s : String) : String :=
  if level = 2 then reSubLastN 1 s
  else if level = 1 then reSubLastN 2 s
  else if level = 0 then reSubLastN 3 s
  else s

/-- Input of one_postal2nuts: a Python string, or a non-string value such as
the integer 6 (whose .replace attribute access raises AttributeError). -/
inductive PyInput where
  | str (s : String)
  | nonStr
  deriving DecidableEq

/-- Outcome of one_postal2nuts.
invalidInput: the AttributeError re-raised for non-string input (the spec
taxonomy calls this InvalidInputError); notFound: the None returned when the
key misses the table; code: the single region code, possibly truncated;
multi: the sub-Series returned when the key is duplicated and level is 3;
typeErr: the TypeError re.sub raises on a sub-Series at level 2, 1 or 0. -/
inductive OneResult where
  | invalidInput
  | notFound
  | code (s : String)
  | multi (l : List String)
  | typeErr
  deriving DecidableEq

/-- str.replace of the space character by the empty string, the only
normalization one_postal2nuts applies before upper-casing. -/
def removeSpaces (s : String) : String :=
  String.mk (s.data.filter (fun c => c != ' '))

/-- The input normalization of one_postal2nuts: remove spaces, upper-case. -/
def normOne (s : String) : String :=
  toUpperStr (removeSpaces s)

/-- The lookup-and-truncate tail of one_postal2nuts on a normalized key. -/
def lookupOne (rows : List (String × String)) (p : String) (level : Int) : OneResult :=
  match loc rows p with
  | [] => .notFound
  | [v] => .code (truncateLevel level v)
  | v :: w :: rest =>
      if level = 2 ∨ level = 1 ∨ level = 0 then .typeErr
      else .multi (v :: w :: rest)

/-- NutsPostalCode.one_postal2nuts. -/
def one_postal2nuts (rows : List (String × String)) (input : PyInput) (level : Int) :
    OneResult :=
  match input with
  | .nonStr => .invalidInput
  | .str s => lookupOne rows (normOne s) level

/-- The loaded table as seen by postal2nuts: the name of the value column
(the first column header of the source file) and the index/value rows. -/
structure NutsTable where
  name : String
  rows : List (String × String)
  deriving DecidableEq

/-- Series.str.replace of regex `\s` by the empty string, the normalization
postal2nuts applies to the whole input Series before upper-casing. -/
def removeAllWhitespace (s : String) : String :=
  String.mk (s.data.filter (fun c => !isPySpace c))

/-- The input normalization of postal2nuts: remove all whitespace, upper. -/
def normMany (s : String) : String :=
  toUpperStr (removeAllWhitespace s)

/-- pandas Series.reindex: raises ValueError when the index carries duplicate
labels; otherwise one output row per requested label, in request order, with
the unique matching value or NaN (none). -/
def reindex (tbl : NutsTable) (labels : List String) :
    Option (List (String × Option String)) :=
  if (tbl.rows.map Prod.fst).Nodup then
    some (labels.map (fun l => (l, (loc tbl.rows l).head?)))
  else none

/-- Series.str.replace over a reindexed Series: NaN values stay NaN. -/
def mapVals (f : String → String) (pairs : List (String × Option String)) :
    List (String × Option String) :=
  pairs.map (fun pr => (pr.1, pr.2.map f))

/-- Outcome of postal2nuts.  levelError: the ValueError raised for a level
outside 0..3; reindexError: the ValueError reindex raises on duplicate index
labels; series: the result Series with its name and its (key, value) rows. -/
inductive ManyResult where
  | levelError
  | reindexError
  | series (name : String) (pairs : List (String × Option String))
  deriving DecidableEq

/-- NutsPostalCode.postal2nuts. -/
def postal2nuts (tbl : NutsTable) (codes : List String) (level : Int) : ManyResult :=
  if ¬ (level = 0 ∨ level = 1 ∨ level = 2 ∨ level = 3) then .levelError
  else
    match reindex tbl (codes.map normMany) with
    | none => .reindexError
    | some pairs =>
        if level = 2 then .series "NUTS2" (mapVals (reSubLastN 1) pairs)
        else if level = 1 then .series "NUTS1" (mapVals (reSubLastN 2) pairs)
        else if level = 0 then .series "NUTS0" (mapVals (reSubLastN 3) pairs)
        else .series tbl.name pairs

/-- An HTTP response: status code and body.  requests' Response.ok is
status < 400. -/
structure HttpResponse where
  status : Nat
  content : String
  deriving DecidableEq

/-- Outcome of session.get: a response, or a transport-level failure which
requests surfaces as a raised exception (ConnectionError, Timeout, ...). -/
inductive GetResult where
  | resp (r : HttpResponse)
  | raiseTransport
  deriving DecidableEq

/-- NutsData.download_nuts_codes, as a function of the HTTP outcome and of
the file currently at the cache path (none = no file).  Returns the success
boolean and the resulting file at the cache path, or propagates the raised
transport exception (.error). -/
def download_nuts_codes (g : GetResult) (cached : Option String) :
    Except Unit (Bool × Option String) :=
  match g with
  | .raiseTransport => .error ()
  | .resp r => if r.status < 400 then .ok (true, some r.content) else .ok (false, cached)

/-- The fetch decision of NutsData.__init__: download when the target file
does not exist or force_download is set, otherwise only log.  Returns the
number of network calls made and the resulting file at the cache path. -/
def initFetch (fileExists force : Bool) (g : GetResult) (cached : Option String) :
    Except Unit (Nat × Option String) :=
  if !fileExists || force then
    match download_nuts_codes g cached with
    | .error e => .error e
    | .ok (_, file) => .ok (1, file)
  else .ok (0, cached)

/-- A one-row table as loaded from a file with row NL333;1234AB. -/
def tblNL : List (String × String) := loadRows [("NL333", "1234AB")]

/-- A table loaded from a file carrying a country-level (2-character) region
code. -/
def tblShort : List (String × String) := loadRows [("NL", "1234AB")]

/-- A table loaded from a file whose two rows share the postal code. -/
def dupTable : List (String × String) :=
  loadRows [("NL111", "1234AB"), ("NL222", "1234AB")]

/-- A table loaded from a file whose first column header is REGION. -/
def regionTable : NutsTable := ⟨"REGION", tblNL⟩

/-- Helper: String.mk is the inverse of String.data. -/
lemma mk_data (s : String) : String.mk s.data = s := rfl

/-- Helper: removing zero trailing characters is the identity. -/
lemma dropLastChars_zero (s : String) : dropLastChars s 0 = s := by
  show String.mk (s.data.take (s.data.length - 0)) = s
  rw [Nat.sub_zero, List.take_length, mk_data]

/-- Helper: the length after removal of the last n characters. -/
lemma dropLastChars_length (s : String) (n : Nat) :
    (dropLastChars s n).length = s.length - n := by
  show (s.data.take (s.data.length - n)).length = s.data.length - n
  rw [List.length_take]
  omega

/-- Helper: on codes of length at least 3 and a level inside 0..3, the re.sub
truncation of one_postal2nuts removes exactly the last (3 - level)
characters. -/
lemma truncateLevel_eq_dropLastChars (v : String) (l : Int) (h0 : 0 ≤ l)
    (h3 : l ≤ 3) (hlen : 3 ≤ v.length) :
    truncateLevel l v = dropLastChars v (3 - l).toNat := by
  have hdl : 3 ≤ v.data.length := hlen
  interval_cases l
  · show (if (3 : Nat) ≤ v.data.length then String.mk (v.data.take (v.data.length - 3))
      else v) = dropLastChars v (3 - (0 : Int)).toNat
    rw [if_pos hdl]
    rfl
  · show (if (2 : Nat) ≤ v.data.length then String.mk (v.data.take (v.data.length - 2))
      else v) = dropLastChars v (3 - (1 : Int)).toNat
    rw [if_pos (by omega)]
    rfl
  · show (if (1 : Nat) ≤ v.data.length then String.mk (v.data.take (v.data.length - 1))
      else v) = dropLastChars v (3 - (2 : Int)).toNat
    rw [if_pos (by omega)]
    rfl
  · show v = dropLastChars v (3 - (3 : Int)).toNat
    rw [show ((3 : Int) - 3).toNat = 0 from rfl, dropLastChars_zero]

/-- Helper: one_postal2nuts on a key with a unique match truncates the
matched value. -/
lemma one_postal2nuts_of_loc_single (rows : List (String × String)) (p v : String)
    (level : Int) (hloc : loc rows (normOne p) = [v]) :
    one_postal2nuts rows (PyInput.str p) level = OneResult.code (truncateLevel level v) := by
  simp [one_postal2nuts, lookupOne, hloc]

/-- Helper: a pair drawn from a labelled map has its value determined by its
label. -/
lemma labeled_pairs_spec (labels : List String) (g : String → Option String)
    (pr : String × Option String) (hpr : pr ∈ labels.map (fun l => (l, g l))) :
    pr.2 = g pr.1 := by
  simp only [List.mem_map] at hpr
  obtain ⟨l, _, h⟩ := hpr
  subst h
  rfl

end NutsTools

namespace NutsTools

/-- C1 counterexample: on a loaded table carrying the country-level region
code NL (length 2), resolveOne at level 0 returns NL, which is not the
level-3 result with its last 3 characters removed (the empty string); and
the result at level 1 is the empty string while the result at level 0 is NL,
so the lengths are not non-increasing as the level decreases. -/
theorem one2nuts_truncation_counterexample :
    one_postal2nuts tblShort (PyInput.str "1234AB") 3 = OneResult.code "NL" ∧
    one_postal2nuts tblShort (PyInput.str "1234AB") 0 = OneResult.code "NL" ∧
    OneResult.code "NL" ≠ OneResult.code (dropLastChars "NL" 3) ∧
    one_postal2nuts tblShort (PyInput.str "1234AB") 1 = OneResult.code "" ∧
    ("" : String).length < ("NL" : String).length := by
  decide

/-- C1 amended: for every loaded table, for a postal code whose normalized
form matches exactly one stored code of length at least 3, and for levels
l ≤ l' in [0,3], resolveOne at level l returns the stored code with its last
(3 - l) characters removed (level 3 returns it unchanged), and the length at
level l is at most the length at level l'. -/
theorem one2nuts_truncation_of_long_codes (rows : List (String × String)) (p v : String)
    (hloc : loc (loadRows rows) (normOne p) = [v]) (hlen : 3 ≤ v.length)
    (l l' : Int) (h0 : 0 ≤ l) (hll : l ≤ l') (h3 : l' ≤ 3) :
    one_postal2nuts (loadRows rows) (PyInput.str p) l =
      OneResult.code (dropLastChars v (3 - l).toNat) ∧
    (dropLastChars v (3 - l).toNat).length ≤ (dropLastChars v (3 - l').toNat).length := by
  constructor
  · rw [one_postal2nuts_of_loc_single (loadRows rows) p v l hloc,
      truncateLevel_eq_dropLastChars v l h0 (le_trans hll h3) hlen]
  · rw [dropLastChars_length, dropLastChars_length]
    omega

/-- C1 witness: the truncation law applied to the table with row
NL333;1234AB at levels 0 and 3. -/
theorem one2nuts_truncation_of_long_codes_witness :
    (loc tblNL (normOne "1234 ab") = ["NL333"] ∧ 3 ≤ ("NL333" : String).length ∧
      (0 : Int) ≤ 0 ∧ (0 : Int) ≤ 3 ∧ (3 : Int) ≤ 3) ∧
    one_postal2nuts tblNL (PyInput.str "1234 ab") 0 =
      OneResult.code (dropLastChars "NL333" (3 - (0 : Int)).toNat) ∧
    (dropLastChars "NL333" (3 - (0 : Int)).toNat).length ≤
      (dropLastChars "NL333" (3 - (3 : Int)).toNat).length :=
  ⟨⟨by decide, by decide, by decide, by decide, by decide⟩,
    one2nuts_truncation_of_long_codes [("NL333", "1234AB")] "1234 ab" "NL333"
      (by decide) (by decide) 0 3 (by decide) (by decide) (by decide)⟩

/-- C2 counterexample: resolveOne only strips space characters, not all
whitespace: on the table with row NL333;1234AB, the inputs with an internal
space and with an internal tab differ only in whitespace yet give different
results at level 3. -/
theorem one2nuts_tab_whitespace_counterexample :
    one_postal2nuts tblNL (PyInput.str "1234 AB") 3 = OneResult.code "NL333" ∧
    one_postal2nuts tblNL (PyInput.str "1234\tAB") 3 = OneResult.notFound ∧
    OneResult.code "NL333" ≠ OneResult.notFound := by
  decide

/-- C2 amended: resolveOne normalizes its input by removing space characters
only and upper-casing; two inputs with the same such normal form (in
particular inputs differing only in spaces or letter case) give the same
result at every level. -/
theorem one2nuts_space_case_insensitive (rows : List (String × String)) (s t : String)
    (level : Int) (h : normOne s = normOne t) :
    one_postal2nuts rows (PyInput.str s) level =
      one_postal2nuts rows (PyInput.str t) level := by
  simp [one_postal2nuts, h]

/-- C2 witness: a spaced lower-case input and its compact upper-case form
resolve identically on the table with row NL333;1234AB. -/
theorem one2nuts_space_case_insensitive_witness :
    normOne "1234 ab" = normOne "1234AB" ∧
    one_postal2nuts tblNL (PyInput.str "1234 ab") 3 =
      one_postal2nuts tblNL (PyInput.str "1234AB") 3 :=
  ⟨by decide, one2nuts_space_case_insensitive tblNL "1234 ab" "1234AB" 3 (by decide)⟩

/-- C3 counterexample: resolveOne performs no level validation: at level 4 it
returns the stored code instead of failing. -/
theorem one2nuts_level_four_counterexample :
    one_postal2nuts tblNL (PyInput.str "1234AB") 4 = OneResult.code "NL333" := by
  decide

/-- C3 amended: for a level outside [0,3], resolveMany fails with the level
ValueError, while resolveOne performs no validation and behaves exactly as at
level 3 (the stored code is returned untruncated). -/
theorem level_validation_split (tbl : NutsTable) (codes : List String)
    (input : PyInput) (level : Int) (h : level < 0 ∨ 3 < level) :
    postal2nuts tbl codes level = ManyResult.levelError ∧
    one_postal2nuts tbl.rows input level = one_postal2nuts tbl.rows input 3 := by
  have h2 : level ≠ 2 := by omega
  have h1 : level ≠ 1 := by omega
  have hz : level ≠ 0 := by omega
  constructor
  · have hcond : ¬ (level = 0 ∨ level = 1 ∨ level = 2 ∨ level = 3) := by omega
    simp [postal2nuts, hcond]
  · cases input with
    | nonStr => rfl
    | str s =>
        cases hl : loc tbl.rows (normOne s) with
        | nil => simp [one_postal2nuts, lookupOne, hl]
        | cons v rest =>
            cases rest with
            | nil => simp [one_postal2nuts, lookupOne, hl, truncateLevel, h2, h1, hz]
            | cons w rest2 => simp [one_postal2nuts, lookupOne, hl, h2, h1, hz]

/-- C3 witness: the split at level 4 on the table with row NL333;1234AB. -/
theorem level_validation_split_witness :
    ((4 : Int) < 0 ∨ (3 : Int) < 4) ∧
    postal2nuts ⟨"NUTS3", tblNL⟩ ["1234AB"] 4 = ManyResult.levelError ∧
    one_postal2nuts tblNL (PyInput.str "1234AB") 4 =
      one_postal2nuts tblNL (PyInput.str "1234AB") 3 :=
  ⟨Or.inr (by decide),
    level_validation_split ⟨"NUTS3", tblNL⟩ ["1234AB"] (PyInput.str "1234AB") 4
      (Or.inr (by decide))⟩

/-- C4: for every table, level in [0,3] and string postal code whose
normalized form is absent from the table, resolveOne returns the not-found
sentinel (None) and raises nothing. -/
theorem one2nuts_missing_key_notFound (rows : List (String × String)) (p : String)
    (level : Int) (h0 : 0 ≤ level) (h3 : level ≤ 3)
    (habs : loc rows (normOne p) = []) :
    one_postal2nuts rows (PyInput.str p) level = OneResult.notFound := by
  simp [one_postal2nuts, lookupOne, habs]

/-- C4 witness: the lookup of 9999ZZ at level 3 on the table with row
NL333;1234AB returns the sentinel. -/
theorem one2nuts_missing_key_notFound_witness :
    ((0 : Int) ≤ 3 ∧ (3 : Int) ≤ 3 ∧ loc tblNL (normOne "9999ZZ") = []) ∧
    one_postal2nuts tblNL (PyInput.str "9999ZZ") 3 = OneResult.notFound :=
  ⟨⟨by decide, by decide, by decide⟩,
    one2nuts_missing_key_notFound tblNL "9999ZZ" 3 (by decide) (by decide) (by decide)⟩

/-- C5: resolveOne on a non-string input (such as the integer 6) raises the
invalid-input error (Python AttributeError, the spec's InvalidInputError),
an outcome distinct from the not-found sentinel. -/
theorem one2nuts_nonstring_invalidInput (rows : List (String × String)) (level : Int) :
    one_postal2nuts rows PyInput.nonStr level = OneResult.invalidInput ∧
    OneResult.invalidInput ≠ OneResult.notFound :=
  ⟨rfl, by decide⟩

/-- C6: on a table with unique keys and a level in [0,3], resolveMany returns
a series (never failing on misses) with exactly one pair per input element,
in input order, keyed by the normalized postal code, whose value is the
absent marker exactly at the positions whose normalized code misses the
table. -/
theorem postal2nuts_many_shape (tbl : NutsTable) (codes : List String) (level : Int)
    (h0 : 0 ≤ level) (h3 : level ≤ 3) (hu : (tbl.rows.map Prod.fst).Nodup) :
    ∃ name pairs,
      postal2nuts tbl codes level = ManyResult.series name pairs ∧
      pairs.map Prod.fst = codes.map normMany ∧
      ∀ pr ∈ pairs, (pr.2 = none ↔ loc tbl.rows pr.1 = []) := by
  have hre : reindex tbl (codes.map normMany) =
      some ((codes.map normMany).map (fun l => (l, (loc tbl.rows l).head?))) := by
    simp [reindex, hu]
  have hmiss : ∀ (f : String → String), ∀ pr,
      pr ∈ (codes.map normMany).map (fun l => (l, ((loc tbl.rows l).head?).map f)) →
      (pr.2 = none ↔ loc tbl.rows pr.1 = []) := by
    intro f pr hpr
    rw [labeled_pairs_spec (codes.map normMany)
      (fun l => ((loc tbl.rows l).head?).map f) pr hpr]
    rw [Option.map_eq_none', List.head?_eq_none_iff]
  have hid : ∀ pr, pr ∈ (codes.map normMany).map (fun l => (l, (loc tbl.rows l).head?)) →
      (pr.2 = none ↔ loc tbl.rows pr.1 = []) := by
    intro pr hpr
    rw [labeled_pairs_spec (codes.map normMany)
      (fun l => (loc tbl.rows l).head?) pr hpr]
    rw [List.head?_eq_none_iff]
  interval_cases level
  · refine ⟨"NUTS0",
      (codes.map normMany).map (fun l => (l, ((loc tbl.rows l).head?).map (reSubLastN 3))),
      ?_, by simp, hmiss (reSubLastN 3)⟩
    simp only [postal2nuts, hre]
    norm_num [mapVals, List.map_map]
  · refine ⟨"NUTS1",
      (codes.map normMany).map (fun l => (l, ((loc tbl.rows l).head?).map (reSubLastN 2))),
      ?_, by simp, hmiss (reSubLastN 2)⟩
    simp only [postal2nuts, hre]
    norm_num [mapVals, List.map_map]
  · refine ⟨"NUTS2",
      (codes.map normMany).map (fun l => (l, ((loc tbl.rows l).head?).map (reSubLastN 1))),
      ?_, by simp, hmiss (reSubLastN 1)⟩
    simp only [postal2nuts, hre]
    norm_num [mapVals, List.map_map]
  · refine ⟨tbl.name,
      (codes.map normMany).map (fun l => (l, (loc tbl.rows l).head?)),
      ?_, by simp, hid⟩
    simp [postal2nuts, hre]

/-- C6 witness: resolveMany at level 3 on the table with row NL333;1234AB
applied to a spaced input and a missing code. -/
theorem postal2nuts_many_shape_witness :
    ((0 : Int) ≤ 3 ∧ (3 : Int) ≤ 3 ∧ (tblNL.map Prod.fst).Nodup) ∧
    (∃ name pairs,
      postal2nuts ⟨"NUTS3", tblNL⟩ ["1234 ab", "9999ZZ"] 3 =
        ManyResult.series name pairs ∧
      pairs.map Prod.fst = ["1234 ab", "9999ZZ"].map normMany ∧
      ∀ pr ∈ pairs, (pr.2 = none ↔ loc tblNL pr.1 = [])) :=
  ⟨⟨by decide, by decide, by decide⟩,
    postal2nuts_many_shape ⟨"NUTS3", tblNL⟩ ["1234 ab", "9999ZZ"] 3
      (by decide) (by decide) (by decide)⟩

/-- C7 counterexample: loading a file whose two rows NL111;1234AB and
NL222;1234AB share a postal code does not deduplicate: the lookup of the
shared key yields both region codes in file order, not the last row's code
alone, and a single-code resolution returns a multi-valued result. -/
theorem load_duplicate_keys_counterexample :
    loc dupTable "1234AB" = ["NL111", "NL222"] ∧
    (["NL111", "NL222"] : List String) ≠ ["NL222"] ∧
    one_postal2nuts dupTable (PyInput.str "1234AB") 3 =
      OneResult.multi ["NL111", "NL222"] := by
  decide

/-- C7 amended: the loaded table keeps every source row, in file order, keyed
by the normalized postal code; a lookup returns the normalized region codes
of all rows whose postal code normalizes to the key (so duplicate normalized
keys are retained rather than resolved last-write-wins). -/
theorem loc_load_all_matches (rows : List (String × String)) (k : String) :
    loc (loadRows rows) k =
      (rows.filter (fun r => normalizeCell r.2 == k)).map
        (fun r => normalizeCell r.1) := by
  induction rows with
  | nil => rfl
  | cons r rest ih =>
      show loc ((normalizeCell r.2, normalizeCell r.1) :: loadRows rest) k = _
      simp only [loc] at ih ⊢
      by_cases hk : (normalizeCell r.2 == k) = true
      · simp [List.filter_cons, hk, ih]
      · simp [List.filter_cons, hk, ih]

/-- C8 counterexample: a transport-level failure of the HTTP GET propagates
as a raised exception instead of being reported as a boolean False; and a
non-2xx response below 400 (here 304) is treated as success: the body is
written and True is returned. -/
theorem download_failure_counterexample :
    download_nuts_codes GetResult.raiseTransport none = Except.error () ∧
    (Except.error () : Except Unit (Bool × Option String)) ≠ Except.ok (false, none) ∧
    download_nuts_codes (GetResult.resp ⟨304, "redirect body"⟩) none =
      Except.ok (true, some "redirect body") :=
  ⟨rfl, fun h => Except.noConfusion h, rfl⟩

/-- C8 amended: whenever the HTTP GET yields a response with status at least
400 (requests' not-ok), the fetch writes nothing (the cache path keeps its
previous content), raises nothing and returns False; a response with status
below 400 is written and reported True, and a transport-level failure
propagates as an exception. -/
theorem download_httpError_reports_false (r : HttpResponse) (cached : Option String)
    (h : 400 ≤ r.status) :
    download_nuts_codes (GetResult.resp r) cached = Except.ok (false, cached) := by
  simp only [download_nuts_codes]
  rw [if_neg (by omega)]

/-- C8 witness: a 404 response on an empty cache reports False and writes
nothing. -/
theorem download_httpError_reports_false_witness :
    400 ≤ (404 : Nat) ∧
    download_nuts_codes (GetResult.resp ⟨404, "not found"⟩) none =
      Except.ok (false, none) :=
  ⟨by decide, download_httpError_reports_false ⟨404, "not found"⟩ none (by decide)⟩

/-- C9: when the target file exists at the cache path and force is false, the
fetch is skipped for every possible network behaviour: zero network calls are
made and the cached file is returned unchanged. -/
theorem initFetch_cached_skips_network (g : GetResult) (cached : Option String) :
    initFetch true false g cached = Except.ok (0, cached) := rfl

/-- C10 counterexample: at level 3 the result series of resolveMany keeps the
source table's first column header as its name: on a table whose header is
REGION the level-3 result is named REGION, not NUTS3. -/
theorem postal2nuts_level3_name_counterexample :
    postal2nuts regionTable ["1234AB"] 3 =
      ManyResult.series "REGION" [("1234AB", some "NL333")] ∧
    "REGION" ≠ "NUTS3" := by
  decide

/-- C10 amended: on a table with unique keys, the result series of
resolveMany is named NUTS0, NUTS1, NUTS2 at levels 0, 1, 2 respectively,
while at level 3 it keeps the loaded table's first column header (which is
NUTS3 exactly when the source file's header says so). -/
theorem postal2nuts_column_names (tbl : NutsTable) (codes : List String)
    (hu : (tbl.rows.map Prod.fst).Nodup) :
    (∃ ps0, postal2nuts tbl codes 0 = ManyResult.series "NUTS0" ps0) ∧
    (∃ ps1, postal2nuts tbl codes 1 = ManyResult.series "NUTS1" ps1) ∧
    (∃ ps2, postal2nuts tbl codes 2 = ManyResult.series "NUTS2" ps2) ∧
    (∃ ps3, postal2nuts tbl codes 3 = ManyResult.series tbl.name ps3) := by
  have hre : reindex tbl (codes.map normMany) =
      some ((codes.map normMany).map (fun l => (l, (loc tbl.rows l).head?))) := by
    simp [reindex, hu]
  refine ⟨⟨mapVals (reSubLastN 3)
        ((codes.map normMany).map (fun l => (l, (loc tbl.rows l).head?))), ?_⟩,
      ⟨mapVals (reSubLastN 2)
        ((codes.map normMany).map (fun l => (l, (loc tbl.rows l).head?))), ?_⟩,
      ⟨mapVals (reSubLastN 1)
        ((codes.map normMany).map (fun l => (l, (loc tbl.rows l).head?))), ?_⟩,
      ⟨(codes.map normMany).map (fun l => (l, (loc tbl.rows l).head?)), ?_⟩⟩ <;>
    simp [postal2nuts, hre]

/-- C10 witness: the four column names on the table with row NL333;1234AB
and header NUTS3. -/
theorem postal2nuts_column_names_witness :
    (tblNL.map Prod.fst).Nodup ∧
    ((∃ ps0, postal2nuts ⟨"NUTS3", tblNL⟩ ["1234AB"] 0 = ManyResult.series "NUTS0" ps0) ∧
     (∃ ps1, postal2nuts ⟨"NUTS3", tblNL⟩ ["1234AB"] 1 = ManyResult.series "NUTS1" ps1) ∧
     (∃ ps2, postal2nuts ⟨"NUTS3", tblNL⟩ ["1234AB"] 2 = ManyResult.series "NUTS2" ps2) ∧
     (∃ ps3, postal2nuts ⟨"NUTS3", tblNL⟩ ["1234AB"] 3 = ManyResult.series "NUTS3" ps3)) :=
  ⟨by decide, postal2nuts_column_names ⟨"NUTS3", tblNL⟩ ["1234AB"] (by decide)⟩

end NutsTools
